import Mathlib

/-!
# weixin-kit client: credential cache and request dispatcher

A shallow embedding of `src/client.go`.

The Go code talks to three libraries and to the clock; each one is made
explicit here:

* `time.Now()` is the argument `now`.  A `time.Time` is a count of
  nanoseconds on an unbounded axis (`Time`), `t.After(u)` is `u < t`, and
  `t.Add(d)` is `t + d`.  A `time.Duration` is an int64 number of
  nanoseconds, so the arithmetic that builds one wraps (`wrapInt64`).
* `grequests.Get` / `grequests.Post` are the argument `http`, which answers
  a `Request` with a response or with an error.  Every function returns the
  list of requests it issued (`trace`).  `resp.String()` reads the fields of
  its receiver, so on a nil `*grequests.Response` it is a nil pointer
  dereference: the call panics (`Outcome.panics`).
* `gjson.Get(json, path)` is the argument `gjson`.  Of a `gjson.Result` only
  `Int()` and `String()` are read by the client.  `Int()` is an int64: it is
  what gjson makes of the field, not the number written in the document (a
  number that does not fit, such as 18446744073709551616, is read as 0).
* `json.Marshal` is the argument `marshal`.

The receiver `c *Client` is mutated in place by the Go code; here every
function returns the client state it leaves behind.
-/

namespace Weixin

/-! ## Constants and errors -/

def ACCESSTOKEN_API_URL : String := "https://qyapi.weixin.qq.com/cgi-bin/gettoken"

def API_URI : String := "https://qyapi.weixin.qq.com/cgi-bin/"

/-- A Go `error` value, given by its text (`err.Error()`). -/
structure GoError where
  text : String
deriving DecidableEq, Repr

/-- Two's-complement wrap of an integer into the int64 range. -/
def wrapInt64 (x : Int) : Int := (x + 2 ^ 63) % 2 ^ 64 - 2 ^ 63

/-- The constant `time.Second`, in nanoseconds. -/
def Second : Int := 1000000000

/-- `WeixinErr`: `fmt.Errorf("weixin return error, errcode: %d, errmsg: %s", errcode, errmsg)`. -/
def WeixinErr (errcode : Int) (errmsg : String) : GoError :=
  ⟨"weixin return error, errcode: " ++ toString errcode ++ ", errmsg: " ++ errmsg⟩

/-! ## Data model -/

/-- A `time.Time`: nanoseconds on an unbounded axis. -/
abbrev Time := Int

structure accessInfo where
  token : String
  expired : Time
deriving DecidableEq, Repr

structure Client where
  CorpID : String
  CorpSecret : String
  accessInfo : accessInfo
deriving DecidableEq, Repr

def NewClient (corpId : String) (CorpSecret : String) (now : Time) : Client :=
  { CorpID := corpId
    CorpSecret := CorpSecret
    accessInfo := { token := "", expired := now } }

/-! ## The libraries -/

/-- The fields of `grequests.RequestOptions` the client sets. A Go map is an association list. -/
structure RequestOptions where
  Params : List (String × String)
  Headers : List (String × String)
  JSON : Option (List UInt8)
deriving DecidableEq, Repr

/-- One HTTP request as issued through grequests: the verb, the URL and the options. -/
structure Request where
  method : String
  url : String
  o : RequestOptions
deriving DecidableEq, Repr

/-- A `grequests.Response`, read only through `resp.String()`. -/
structure Response where
  body : String
deriving DecidableEq, Repr

/-- What `grequests.Get` / `grequests.Post` hand back: `(resp, nil)` or `(_, err)`. -/
inductive HttpResult where
  | ok (resp : Response)
  | fail (err : GoError)
deriving DecidableEq, Repr

/-- A `gjson.Result` as the client reads it: the values of `Int()` and `String()`.
For a JSON number `String()` is the number as written in the document, while `Int()` is
the int64 gjson reads from it; the two differ when the number does not fit. -/
structure Result where
  asInt : Int
  asString : String
deriving DecidableEq, Repr

/-- The zero `gjson.Result`, which `gjson.Get` returns for a path it does not find
(a missing field, or a document that is not JSON): `Int()` is 0, `String()` is empty. -/
def Result.zero : Result := ⟨0, ""⟩

/-- A Go call either returns or panics (here: a nil pointer dereference). -/
inductive Outcome (α : Type) where
  | returns (a : α)
  | panics
deriving DecidableEq, Repr

/-! ## GetAccessToken -/

/-- What one `GetAccessToken` call yields: the returned pair, the client state it
leaves and the HTTP requests it issued. -/
structure TokenResult where
  token : String
  err : Option GoError
  client : Client
  trace : List Request
deriving DecidableEq, Repr

/-- The request of `grequests.Get(ACCESSTOKEN_API_URL, o)` with `o.Params` holding
`corpid` and `corpsecret`. -/
def tokenRequest (c : Client) : Request :=
  { method := "GET"
    url := ACCESSTOKEN_API_URL
    o := { Params := [("corpid", c.CorpID), ("corpsecret", c.CorpSecret)]
           Headers := []
           JSON := none } }

def GetAccessToken (gjson : String → String → Result) (http : Request → HttpResult)
    (now : Time) (c : Client) : TokenResult :=
  if c.accessInfo.token ≠ "" ∧ now < c.accessInfo.expired then
    { token := c.accessInfo.token, err := none, client := c, trace := [] }
  else
    match http (tokenRequest c) with
    | .fail err => { token := "", err := some err, client := c, trace := [tokenRequest c] }
    | .ok resp =>
      let respJSON := resp.body
      let errcode := gjson respJSON "errcode"
      if errcode.asInt = 0 then
        let token := gjson respJSON "access_token"
        let expiresIn := gjson respJSON "expires_in"
        let c2 : Client :=
          { c with accessInfo :=
              { token := token.asString
                expired := now + wrapInt64 (wrapInt64 (expiresIn.asInt - 5) * Second) } }
        { token := c2.accessInfo.token, err := none, client := c2, trace := [tokenRequest c] }
      else
        { token := ""
          err := some (WeixinErr errcode.asInt (gjson respJSON "errmsg").asString)
          client := c
          trace := [tokenRequest c] }

/-! ## Send -/

/-- What one `Send` call yields. -/
structure SendResult where
  outcome : Outcome (Option Response × Option GoError)
  client : Client
  trace : List Request
deriving DecidableEq, Repr

/-- The options `Send` builds: the token as query parameter, the JSON content type,
and the body when it is not empty. -/
def sendOptions (accessToken : String) (body : List UInt8) : RequestOptions :=
  { Params := [("access_token", accessToken)]
    Headers := [("Content-Type", "application/json")]
    JSON := if body.length > 0 then some body else none }

/-- The `switch requestType` of `Send`: the values of `resp` and `err` after it, and
the request it issued, if any. There is no default case. -/
def dispatch (http : Request → HttpResult) (apiUrl : String) (requestType : String)
    (o : RequestOptions) : Option Response × Option GoError × List Request :=
  if requestType = "GET" then
    match http ⟨"GET", apiUrl, o⟩ with
    | .ok resp => (some resp, none, [⟨"GET", apiUrl, o⟩])
    | .fail err => (none, some err, [⟨"GET", apiUrl, o⟩])
  else if requestType = "POST" then
    match http ⟨"POST", apiUrl, o⟩ with
    | .ok resp => (some resp, none, [⟨"POST", apiUrl, o⟩])
    | .fail err => (none, some err, [⟨"POST", apiUrl, o⟩])
  else
    (none, none, [])

def Send (gjson : String → String → Result) (http : Request → HttpResult)
    (now : Time) (c : Client) (apiUri : String) (requestType : String)
    (body : List UInt8) : SendResult :=
  let t := GetAccessToken gjson http now c
  match t.err with
  | some err => { outcome := .returns (none, some err), client := t.client, trace := t.trace }
  | none =>
    let o := sendOptions t.token body
    let apiUrl := API_URI ++ apiUri
    match dispatch http apiUrl requestType o with
    | (_, some err, reqs) =>
      { outcome := .returns (none, some err), client := t.client, trace := t.trace ++ reqs }
    | (none, none, reqs) =>
      -- `resp.String()` on the nil `*grequests.Response`
      { outcome := .panics, client := t.client, trace := t.trace ++ reqs }
    | (some resp, none, reqs) =>
      let respJSON := resp.body
      let errcode := (gjson respJSON "errcode").asInt
      if errcode = 0 then
        { outcome := .returns (some resp, none), client := t.client, trace := t.trace ++ reqs }
      else
        { outcome := .returns (none, some (WeixinErr errcode (gjson respJSON "errmsg").asString))
          client := t.client
          trace := t.trace ++ reqs }

/-! ## SendMessage -/

/-- What one `SendMessage` call yields. -/
structure MessageResult where
  outcome : Outcome (Bool × Option GoError)
  client : Client
  trace : List Request
deriving DecidableEq, Repr

def SendMessage {Message : Type} (marshal : Message → Except GoError (List UInt8))
    (gjson : String → String → Result) (http : Request → HttpResult)
    (now : Time) (c : Client) (msg : Message) : MessageResult :=
  match marshal msg with
  | .error err => { outcome := .returns (false, some err), client := c, trace := [] }
  | .ok reqJSON =>
    let s := Send gjson http now c "message/send" "POST" reqJSON
    match s.outcome with
    | .panics => { outcome := .panics, client := s.client, trace := s.trace }
    | .returns (_, some err) =>
      { outcome := .returns (false, some err), client := s.client, trace := s.trace }
    | .returns (_, none) =>
      { outcome := .returns (true, none), client := s.client, trace := s.trace }

/-! ## Sequences of calls -/

/-- One `GetAccessToken` call as the world sees it: the clock reading and how the
network answers during the call. -/
structure Call where
  now : Time
  http : Request → HttpResult

/-- Successive `GetAccessToken` calls on one client, each starting from the state the
previous one left. -/
def runCalls (gjson : String → String → Result) : Client → List Call → List TokenResult
  | _, [] => []
  | c, k :: ks =>
    let r := GetAccessToken gjson k.http k.now c
    r :: runCalls gjson r.client ks

/-! ## Vocabulary of the statements -/

/-- The text `s` contains `sub` as a contiguous piece. -/
def containsText (s sub : String) : Prop := ∃ pre post : String, s = pre ++ sub ++ post

/-- The cached credential counts as valid at `now`: non-empty and expiring strictly later. -/
def cacheValid (c : Client) (now : Time) : Prop :=
  c.accessInfo.token ≠ "" ∧ now < c.accessInfo.expired

instance (c : Client) (now : Time) : Decidable (cacheValid c now) := by
  unfold cacheValid; infer_instance

/-! ## Fixtures for concrete runs -/

/-- A gjson stand-in given by a table of `(json, path, result)` rows; any other lookup
finds nothing and gives the zero Result. -/
def gjsonTable (rows : List (String × String × Result)) : String → String → Result :=
  fun json path =>
    match rows.find? (fun r => r.1 == json && r.2.1 == path) with
    | some r => r.2.2
    | none => Result.zero

/-- A network that answers every request with the same body. -/
def httpAlways (body : String) : Request → HttpResult := fun _ => .ok ⟨body⟩

/-- A network that answers the token endpoint with one body and every other URL with another. -/
def httpTwo (tokenBody apiBody : String) : Request → HttpResult :=
  fun req => if req.url = ACCESSTOKEN_API_URL then .ok ⟨tokenBody⟩ else .ok ⟨apiBody⟩

/-- A network on which every request fails. -/
def httpDown : Request → HttpResult := fun _ => .fail ⟨"dial tcp: connection refused"⟩

/-- A client that has never obtained a token, built at time 0. -/
def clientFresh : Client := NewClient "corp" "secret" 0

/-- A client holding the token `cached` that expires at time 500. -/
def clientCached : Client :=
  { CorpID := "corp", CorpSecret := "secret", accessInfo := { token := "cached", expired := 500 } }

/-- The token response `{"errcode":0,"access_token":"tok","expires_in":300}`. -/
def bodyToken300 : String :=
  "\x7b\"errcode\":0,\"access_token\":\"tok\",\"expires_in\":300\x7d"

/-- The token response `{"errcode":0,"access_token":"tok","expires_in":9223372042}`. -/
def bodyTokenHuge : String :=
  "\x7b\"errcode\":0,\"access_token\":\"tok\",\"expires_in\":9223372042\x7d"

/-- The error response `{"errcode":40001,"errmsg":"invalid credential"}`. -/
def bodyInvalid : String :=
  "\x7b\"errcode\":40001,\"errmsg\":\"invalid credential\"\x7d"

/-- The error response `{"errcode":18446744073709551616,"errmsg":"invalid credential"}`,
whose errcode (2^64) does not fit an int64. -/
def bodyErrcodeHuge : String :=
  "\x7b\"errcode\":18446744073709551616,\"errmsg\":\"invalid credential\"\x7d"

/-- The success envelope `{"errcode":0}`. -/
def bodyOk : String := "\x7b\"errcode\":0\x7d"

/-- A body that is not JSON. -/
def bodyHtml : String := "<html>502 Bad Gateway</html>"

/-- What gjson reads in the bodies above. -/
def gjsonFixture : String → String → Result :=
  gjsonTable
    [ (bodyToken300, "errcode", ⟨0, "0"⟩)
    , (bodyToken300, "access_token", ⟨0, "tok"⟩)
    , (bodyToken300, "expires_in", ⟨300, "300"⟩)
    , (bodyTokenHuge, "errcode", ⟨0, "0"⟩)
    , (bodyTokenHuge, "access_token", ⟨0, "tok"⟩)
    , (bodyTokenHuge, "expires_in", ⟨9223372042, "9223372042"⟩)
    , (bodyInvalid, "errcode", ⟨40001, "40001"⟩)
    , (bodyInvalid, "errmsg", ⟨0, "invalid credential"⟩)
    , (bodyErrcodeHuge, "errcode", ⟨0, "18446744073709551616"⟩)
    , (bodyErrcodeHuge, "errmsg", ⟨0, "invalid credential"⟩)
    , (bodyOk, "errcode", ⟨0, "0"⟩) ]

/-- A `json.Marshal` stand-in that serializes every message to the two bytes of `{}`. -/
def marshalEmpty : Unit → Except GoError (List UInt8) := fun _ => .ok [123, 125]

/-- A call at time 1000 that finds the network down. -/
def callFirst : Call := ⟨1000, httpDown⟩

/-- Three later calls: at 1500 the network is still down, at 2000 it answers with a token
valid for 300 seconds, at 3000 it is down again. -/
def callsLater : List Call :=
  [ ⟨1500, httpDown⟩, ⟨2000, httpAlways bodyToken300⟩, ⟨3000, httpDown⟩ ]

/-! ## Helper lemmas -/

theorem GetAccessToken_valid (gjson : String → String → Result) (http : Request → HttpResult)
    (now : Time) (c : Client) (h : cacheValid c now) :
    GetAccessToken gjson http now c =
      { token := c.accessInfo.token, err := none, client := c, trace := [] } := by
  unfold cacheValid at h
  simp [GetAccessToken, h]

theorem GetAccessToken_fail (gjson : String → String → Result) (http : Request → HttpResult)
    (now : Time) (c : Client) (err : GoError) (h : ¬ cacheValid c now)
    (hh : http (tokenRequest c) = .fail err) :
    GetAccessToken gjson http now c =
      { token := "", err := some err, client := c, trace := [tokenRequest c] } := by
  unfold cacheValid at h
  simp only [GetAccessToken, if_neg h, hh]

theorem GetAccessToken_zero (gjson : String → String → Result) (http : Request → HttpResult)
    (now : Time) (c : Client) (resp : Response) (h : ¬ cacheValid c now)
    (hh : http (tokenRequest c) = .ok resp) (h0 : (gjson resp.body "errcode").asInt = 0) :
    GetAccessToken gjson http now c =
      { token := (gjson resp.body "access_token").asString
        err := none
        client :=
          { c with accessInfo :=
              { token := (gjson resp.body "access_token").asString
                expired := now +
                  wrapInt64 (wrapInt64 ((gjson resp.body "expires_in").asInt - 5) * Second) } }
        trace := [tokenRequest c] } := by
  unfold cacheValid at h
  simp only [GetAccessToken, if_neg h, hh, h0, if_true]

theorem GetAccessToken_nonzero (gjson : String → String → Result) (http : Request → HttpResult)
    (now : Time) (c : Client) (resp : Response) (h : ¬ cacheValid c now)
    (hh : http (tokenRequest c) = .ok resp) (h0 : (gjson resp.body "errcode").asInt ≠ 0) :
    GetAccessToken gjson http now c =
      { token := ""
        err := some (WeixinErr (gjson resp.body "errcode").asInt
                      (gjson resp.body "errmsg").asString)
        client := c
        trace := [tokenRequest c] } := by
  unfold cacheValid at h
  simp only [GetAccessToken, if_neg h, hh, if_neg h0]

theorem wrapInt64_of_range (x : Int) (hlo : -2 ^ 63 ≤ x) (hhi : x < 2 ^ 63) :
    wrapInt64 x = x := by
  unfold wrapInt64
  have h1 : (0 : Int) ≤ x + 2 ^ 63 := by omega
  have h2 : x + 2 ^ 63 < 2 ^ 64 := by omega
  rw [Int.emod_eq_of_lt h1 h2]
  omega

theorem WeixinErr_contains_code (errcode : Int) (errmsg : String) :
    containsText (WeixinErr errcode errmsg).text (toString errcode) :=
  ⟨"weixin return error, errcode: ", ", errmsg: " ++ errmsg, by
    simp [WeixinErr, String.append_assoc]⟩

theorem WeixinErr_contains_msg (errcode : Int) (errmsg : String) :
    containsText (WeixinErr errcode errmsg).text errmsg :=
  ⟨"weixin return error, errcode: " ++ toString errcode ++ ", errmsg: ", "", by
    simp [WeixinErr]⟩

/-- A refresh is attempted exactly when the cache is not valid; it issues the one
token request. -/
theorem GetAccessToken_trace (gjson : String → String → Result) (http : Request → HttpResult)
    (now : Time) (c : Client) :
    (GetAccessToken gjson http now c).trace =
      if cacheValid c now then [] else [tokenRequest c] := by
  by_cases h : cacheValid c now
  · rw [GetAccessToken_valid gjson http now c h, if_pos h]
  · rw [if_neg h]
    cases hh : http (tokenRequest c) with
    | fail err => rw [GetAccessToken_fail gjson http now c err h hh]
    | ok resp =>
      by_cases h0 : (gjson resp.body "errcode").asInt = 0
      · rw [GetAccessToken_zero gjson http now c resp h hh h0]
      · rw [GetAccessToken_nonzero gjson http now c resp h hh h0]

/-- A call that returns an error leaves the client as it found it. -/
theorem GetAccessToken_err_client (gjson : String → String → Result)
    (http : Request → HttpResult) (now : Time) (c : Client) (e : GoError)
    (he : (GetAccessToken gjson http now c).err = some e) :
    (GetAccessToken gjson http now c).client = c := by
  by_cases h : cacheValid c now
  · rw [GetAccessToken_valid gjson http now c h]
  · cases hh : http (tokenRequest c) with
    | fail err => rw [GetAccessToken_fail gjson http now c err h hh]
    | ok resp =>
      by_cases h0 : (gjson resp.body "errcode").asInt = 0
      · rw [GetAccessToken_zero gjson http now c resp h hh h0] at he
        simp at he
      · rw [GetAccessToken_nonzero gjson http now c resp h hh h0]

/-- A call that returns an error attempted a refresh: the cache was not valid. -/
theorem GetAccessToken_err_not_valid (gjson : String → String → Result)
    (http : Request → HttpResult) (now : Time) (c : Client) (e : GoError)
    (he : (GetAccessToken gjson http now c).err = some e) : ¬ cacheValid c now := by
  intro h
  rw [GetAccessToken_valid gjson http now c h] at he
  simp at he

/-! ## GetAccessToken: the cache -/

/-- C1: when the cached token is non-empty and the cached expiry is strictly after the
current time, GetAccessToken returns exactly the cached token with a nil error, issues no
HTTP request, and leaves the client (cached token and expiry included) unchanged. -/
theorem GetAccessToken_fast_path (gjson : String → String → Result)
    (http : Request → HttpResult) (now : Time) (c : Client)
    (htoken : c.accessInfo.token ≠ "") (hexpired : now < c.accessInfo.expired) :
    (GetAccessToken gjson http now c).token = c.accessInfo.token ∧
    (GetAccessToken gjson http now c).err = none ∧
    (GetAccessToken gjson http now c).trace = [] ∧
    (GetAccessToken gjson http now c).client = c := by
  rw [GetAccessToken_valid gjson http now c ⟨htoken, hexpired⟩]
  exact ⟨rfl, rfl, rfl, rfl⟩

theorem GetAccessToken_fast_path_witness :
    (clientCached.accessInfo.token ≠ "" ∧ (499 : Time) < clientCached.accessInfo.expired) ∧
    ((GetAccessToken gjsonFixture httpDown 499 clientCached).token
        = clientCached.accessInfo.token ∧
     (GetAccessToken gjsonFixture httpDown 499 clientCached).err = none ∧
     (GetAccessToken gjsonFixture httpDown 499 clientCached).trace = [] ∧
     (GetAccessToken gjsonFixture httpDown 499 clientCached).client = clientCached) :=
  ⟨⟨by decide, by decide⟩,
   GetAccessToken_fast_path gjsonFixture httpDown 499 clientCached (by decide) (by decide)⟩

/-- C2: the cache is used (no request is issued) if and only if the cached token is
non-empty and its expiry is strictly after now; and exactly when the cached token is
empty or the expiry equals now or lies before it, the call issues exactly one request,
a GET to the token endpoint whose parameters are the corpid and the corpsecret of the
client. -/
theorem GetAccessToken_expiry_boundary (gjson : String → String → Result)
    (http : Request → HttpResult) (now : Time) (c : Client) :
    ((GetAccessToken gjson http now c).trace = [] ↔
        (c.accessInfo.token ≠ "" ∧ now < c.accessInfo.expired)) ∧
    ((GetAccessToken gjson http now c).trace =
        [ { method := "GET"
            url := ACCESSTOKEN_API_URL
            o := { Params := [("corpid", c.CorpID), ("corpsecret", c.CorpSecret)]
                   Headers := []
                   JSON := none } } ] ↔
        (c.accessInfo.token = "" ∨ c.accessInfo.expired ≤ now)) := by
  rw [GetAccessToken_trace]
  by_cases h : cacheValid c now
  · rw [if_pos h]
    have h2 := h
    unfold cacheValid at h2
    refine ⟨⟨fun _ => h2, fun _ => rfl⟩, ⟨fun hnil => by simp at hnil, ?_⟩⟩
    rintro (ht | he)
    · exact absurd ht h2.1
    · exact absurd h2.2 (not_lt.mpr he)
  · rw [if_neg h]
    have h2 := h
    unfold cacheValid at h2
    refine ⟨⟨fun hnil => by simp at hnil, fun hv => absurd hv h2⟩, ⟨fun _ => ?_, fun _ => rfl⟩⟩
    by_cases ht : c.accessInfo.token = ""
    · exact Or.inl ht
    · exact Or.inr (not_lt.mp (fun hlt => h2 ⟨ht, hlt⟩))

/-! ## GetAccessToken: refresh -/

/-- C3, as stated, fails: a refresh answered with errcode 0 and expires_in = 9223372042
does not set the expiry to now + (9223372042 - 5) seconds. The int64 product
`(ttl - 5) * time.Second` wraps, and the stored expiry lies in the past. -/
theorem expiry_margin_counterexample :
    ¬ cacheValid clientFresh 0 ∧
    httpAlways bodyTokenHuge (tokenRequest clientFresh) = .ok ⟨bodyTokenHuge⟩ ∧
    (gjsonFixture bodyTokenHuge "errcode").asInt = 0 ∧
    (gjsonFixture bodyTokenHuge "access_token").asString = "tok" ∧
    (gjsonFixture bodyTokenHuge "expires_in").asInt = 9223372042 ∧
    (GetAccessToken gjsonFixture (httpAlways bodyTokenHuge) 0 clientFresh).client.accessInfo.expired
      ≠ 0 + (9223372042 - 5) * Second ∧
    (GetAccessToken gjsonFixture (httpAlways bodyTokenHuge) 0 clientFresh).client.accessInfo.expired
      = -9223372036709551616 := by
  decide

/-- C3 (amended): for every refresh whose response has errcode 0, access_token = tok and
expires_in = ttl, where (ttl - 5) seconds fits a time.Duration (the number of
nanoseconds (ttl - 5) * 10^9 lies in the int64 range), GetAccessToken returns tok with a
nil error, stores tok as the cached token, and sets the cached expiry to exactly
now + (ttl - 5) seconds, now being the time read at the start of the call. -/
theorem expiry_margin (gjson : String → String → Result) (http : Request → HttpResult)
    (now : Time) (c : Client) (resp : Response) (tok : String) (ttl : Int)
    (hrefresh : ¬ (c.accessInfo.token ≠ "" ∧ now < c.accessInfo.expired))
    (hresp : http (tokenRequest c) = .ok resp)
    (herrcode : (gjson resp.body "errcode").asInt = 0)
    (htok : (gjson resp.body "access_token").asString = tok)
    (httl : (gjson resp.body "expires_in").asInt = ttl)
    (hlo : -2 ^ 63 ≤ (ttl - 5) * 1000000000) (hhi : (ttl - 5) * 1000000000 < 2 ^ 63) :
    (GetAccessToken gjson http now c).token = tok ∧
    (GetAccessToken gjson http now c).err = none ∧
    (GetAccessToken gjson http now c).client.accessInfo.token = tok ∧
    (GetAccessToken gjson http now c).client.accessInfo.expired
      = now + (ttl - 5) * 1000000000 := by
  rw [GetAccessToken_zero gjson http now c resp hrefresh hresp herrcode, htok, httl]
  refine ⟨rfl, rfl, rfl, ?_⟩
  have h1 : wrapInt64 (ttl - 5) = ttl - 5 :=
    wrapInt64_of_range _ (by omega) (by omega)
  show now + wrapInt64 (wrapInt64 (ttl - 5) * Second) = now + (ttl - 5) * 1000000000
  rw [h1]
  unfold Second
  rw [wrapInt64_of_range _ hlo hhi]

theorem expiry_margin_witness :
    (GetAccessToken gjsonFixture (httpAlways bodyToken300) 1000 clientFresh).token = "tok" ∧
    (GetAccessToken gjsonFixture (httpAlways bodyToken300) 1000 clientFresh).err = none ∧
    (GetAccessToken gjsonFixture (httpAlways bodyToken300) 1000 clientFresh).client.accessInfo.token
      = "tok" ∧
    (GetAccessToken gjsonFixture (httpAlways bodyToken300) 1000 clientFresh).client.accessInfo.expired
      = 1000 + (300 - 5) * 1000000000 :=
  expiry_margin gjsonFixture (httpAlways bodyToken300) 1000 clientFresh ⟨bodyToken300⟩ "tok" 300
    (by decide) (by decide) (by decide) (by decide) (by decide) (by decide) (by decide)

/-- C4, as stated, fails: a refresh answered with the nonzero errcode
18446744073709551616 and errmsg "invalid credential" returns a nil error and overwrites
the cache. The code tests `errcode.Int()`, and gjson reads this number, which does not
fit an int64, as 0. -/
theorem GetAccessToken_api_error_counterexample :
    ¬ cacheValid clientCached 1000 ∧
    httpAlways bodyErrcodeHuge (tokenRequest clientCached) = .ok ⟨bodyErrcodeHuge⟩ ∧
    (gjsonFixture bodyErrcodeHuge "errcode").asString
      = toString (18446744073709551616 : Int) ∧
    (18446744073709551616 : Int) ≠ 0 ∧
    (gjsonFixture bodyErrcodeHuge "errmsg").asString = "invalid credential" ∧
    (gjsonFixture bodyErrcodeHuge "errcode").asInt = 0 ∧
    (GetAccessToken gjsonFixture (httpAlways bodyErrcodeHuge) 1000 clientCached).err = none ∧
    (GetAccessToken gjsonFixture (httpAlways bodyErrcodeHuge) 1000 clientCached).client.accessInfo
      ≠ clientCached.accessInfo ∧
    (GetAccessToken gjsonFixture (httpAlways bodyErrcodeHuge) 1000 clientCached).client.accessInfo
      = { token := "", expired := 1000 - 5 * Second } := by
  decide

/-- C4 (amended): for every refresh whose response has an errcode that `Int()` reads as a
nonzero int64 c, and errmsg m, GetAccessToken returns the empty token together with an
error whose text contains the decimal code c and the message m, and leaves the client
(cached token and expiry included) exactly as it was. -/
theorem GetAccessToken_api_error (gjson : String → String → Result)
    (http : Request → HttpResult) (now : Time) (c : Client) (resp : Response)
    (code : Int) (m : String)
    (hrefresh : ¬ (c.accessInfo.token ≠ "" ∧ now < c.accessInfo.expired))
    (hresp : http (tokenRequest c) = .ok resp)
    (hcode : (gjson resp.body "errcode").asInt = code) (hnonzero : code ≠ 0)
    (hmsg : (gjson resp.body "errmsg").asString = m) :
    (GetAccessToken gjson http now c).token = "" ∧
    (∃ e : GoError, (GetAccessToken gjson http now c).err = some e ∧
        containsText e.text (toString code) ∧ containsText e.text m) ∧
    (GetAccessToken gjson http now c).client = c := by
  have h0 : (gjson resp.body "errcode").asInt ≠ 0 := by rw [hcode]; exact hnonzero
  rw [GetAccessToken_nonzero gjson http now c resp hrefresh hresp h0, hcode, hmsg]
  exact ⟨rfl, ⟨WeixinErr code m, rfl, WeixinErr_contains_code code m,
    WeixinErr_contains_msg code m⟩, rfl⟩

theorem GetAccessToken_api_error_witness :
    (GetAccessToken gjsonFixture (httpAlways bodyInvalid) 1000 clientCached).token = "" ∧
    (∃ e : GoError,
        (GetAccessToken gjsonFixture (httpAlways bodyInvalid) 1000 clientCached).err = some e ∧
        containsText e.text (toString (40001 : Int)) ∧
        containsText e.text "invalid credential") ∧
    (GetAccessToken gjsonFixture (httpAlways bodyInvalid) 1000 clientCached).client
      = clientCached :=
  GetAccessToken_api_error gjsonFixture (httpAlways bodyInvalid) 1000 clientCached ⟨bodyInvalid⟩
    40001 "invalid credential" (by decide) (by decide) (by decide) (by decide) (by decide)

/-- C5, as stated, fails: when the token endpoint answers with a body that is not JSON,
GetAccessToken returns a nil error and overwrites the cache (here with the empty token
and the expiry now - 5 seconds). -/
theorem GetAccessToken_unparseable_counterexample :
    ¬ cacheValid clientCached 1000 ∧
    httpAlways bodyHtml (tokenRequest clientCached) = .ok ⟨bodyHtml⟩ ∧
    gjsonFixture bodyHtml "errcode" = Result.zero ∧
    (GetAccessToken gjsonFixture (httpAlways bodyHtml) 1000 clientCached).err = none ∧
    (GetAccessToken gjsonFixture (httpAlways bodyHtml) 1000 clientCached).client.accessInfo
      ≠ clientCached.accessInfo ∧
    (GetAccessToken gjsonFixture (httpAlways bodyHtml) 1000 clientCached).client.accessInfo
      = { token := "", expired := 1000 - 5 * Second } := by
  decide

/-- C5 (amended): for every refresh in which the HTTP call succeeds but the body gives no
errcode (it is not JSON, or has no errcode field, so gjson finds nothing and reads 0),
GetAccessToken takes the success branch: it returns a nil error together with the
access_token string read from the body, stores that string as the cached token, and
sets the cached expiry to now plus the wrapped duration (expires_in - 5) seconds. When
access_token and expires_in are missing too, it returns the empty token with a nil error
and the cache becomes the empty token with expiry now - 5 seconds. -/
theorem GetAccessToken_unparseable (gjson : String → String → Result)
    (http : Request → HttpResult) (now : Time) (c : Client) (resp : Response)
    (hrefresh : ¬ (c.accessInfo.token ≠ "" ∧ now < c.accessInfo.expired))
    (hresp : http (tokenRequest c) = .ok resp)
    (hmissing : gjson resp.body "errcode" = Result.zero) :
    ((GetAccessToken gjson http now c).err = none ∧
     (GetAccessToken gjson http now c).token = (gjson resp.body "access_token").asString ∧
     (GetAccessToken gjson http now c).client.accessInfo =
       { token := (gjson resp.body "access_token").asString
         expired := now +
           wrapInt64 (wrapInt64 ((gjson resp.body "expires_in").asInt - 5) * Second) }) ∧
    (gjson resp.body "access_token" = Result.zero →
     gjson resp.body "expires_in" = Result.zero →
       (GetAccessToken gjson http now c).token = "" ∧
       (GetAccessToken gjson http now c).err = none ∧
       (GetAccessToken gjson http now c).client.accessInfo =
         { token := "", expired := now - 5 * 1000000000 }) := by
  have h0 : (gjson resp.body "errcode").asInt = 0 := by rw [hmissing]; rfl
  rw [GetAccessToken_zero gjson http now c resp hrefresh hresp h0]
  refine ⟨⟨rfl, rfl, rfl⟩, fun ha he => ?_⟩
  rw [ha, he]
  refine ⟨rfl, rfl, ?_⟩
  show ({ token := "", expired := now + wrapInt64 (wrapInt64 ((0 : Int) - 5) * Second) }
      : accessInfo) = _
  have h1 : wrapInt64 (wrapInt64 ((0 : Int) - 5) * Second) = -(5 * 1000000000) := by decide
  rw [h1]
  rfl

theorem GetAccessToken_unparseable_witness :
    ((GetAccessToken gjsonFixture (httpAlways bodyHtml) 1000 clientCached).err = none ∧
     (GetAccessToken gjsonFixture (httpAlways bodyHtml) 1000 clientCached).token
       = (gjsonFixture bodyHtml "access_token").asString ∧
     (GetAccessToken gjsonFixture (httpAlways bodyHtml) 1000 clientCached).client.accessInfo =
       { token := (gjsonFixture bodyHtml "access_token").asString
         expired := 1000 +
           wrapInt64 (wrapInt64 ((gjsonFixture bodyHtml "expires_in").asInt - 5) * Second) }) ∧
    (gjsonFixture bodyHtml "access_token" = Result.zero →
     gjsonFixture bodyHtml "expires_in" = Result.zero →
       (GetAccessToken gjsonFixture (httpAlways bodyHtml) 1000 clientCached).token = "" ∧
       (GetAccessToken gjsonFixture (httpAlways bodyHtml) 1000 clientCached).err = none ∧
       (GetAccessToken gjsonFixture (httpAlways bodyHtml) 1000 clientCached).client.accessInfo =
         { token := "", expired := 1000 - 5 * 1000000000 }) :=
  GetAccessToken_unparseable gjsonFixture (httpAlways bodyHtml) 1000 clientCached ⟨bodyHtml⟩
    (by decide) (by decide) (by decide)

/-! ## Send -/

/-- With a credential error, `Send` returns it and goes no further. -/
theorem Send_of_token_err (gjson : String → String → Result) (http : Request → HttpResult)
    (now : Time) (c : Client) (apiUri requestType : String) (body : List UInt8) (e : GoError)
    (hcred : (GetAccessToken gjson http now c).err = some e) :
    Send gjson http now c apiUri requestType body =
      { outcome := .returns (none, some e)
        client := (GetAccessToken gjson http now c).client
        trace := (GetAccessToken gjson http now c).trace } := by
  simp only [Send, hcred]

/-- With a credential, `Send` goes on to the verb switch and reads the envelope. -/
theorem Send_of_token_ok (gjson : String → String → Result) (http : Request → HttpResult)
    (now : Time) (c : Client) (apiUri requestType : String) (body : List UInt8)
    (hcred : (GetAccessToken gjson http now c).err = none) :
    Send gjson http now c apiUri requestType body =
      match dispatch http (API_URI ++ apiUri) requestType
          (sendOptions (GetAccessToken gjson http now c).token body) with
      | (_, some err, reqs) =>
        { outcome := .returns (none, some err)
          client := (GetAccessToken gjson http now c).client
          trace := (GetAccessToken gjson http now c).trace ++ reqs }
      | (none, none, reqs) =>
        { outcome := .panics
          client := (GetAccessToken gjson http now c).client
          trace := (GetAccessToken gjson http now c).trace ++ reqs }
      | (some resp, none, reqs) =>
        if (gjson resp.body "errcode").asInt = 0 then
          { outcome := .returns (some resp, none)
            client := (GetAccessToken gjson http now c).client
            trace := (GetAccessToken gjson http now c).trace ++ reqs }
        else
          { outcome := .returns (none, some (WeixinErr (gjson resp.body "errcode").asInt
                                    (gjson resp.body "errmsg").asString))
            client := (GetAccessToken gjson http now c).client
            trace := (GetAccessToken gjson http now c).trace ++ reqs } := by
  simp only [Send, hcred]

/-- On a supported verb the switch issues the request with that verb. -/
theorem dispatch_verb (http : Request → HttpResult) (apiUrl requestType : String)
    (o : RequestOptions) (hverb : requestType = "GET" ∨ requestType = "POST") :
    dispatch http apiUrl requestType o =
      match http ⟨requestType, apiUrl, o⟩ with
      | .ok resp => (some resp, none, [⟨requestType, apiUrl, o⟩])
      | .fail err => (none, some err, [⟨requestType, apiUrl, o⟩]) := by
  rcases hverb with h | h
  · subst h
    simp only [dispatch, if_true]
  · subst h
    have hne : ¬ ("POST" = "GET") := by decide
    simp only [dispatch, if_neg hne, if_true]

/-- On any other verb the switch does nothing: `resp` and `err` stay nil. -/
theorem dispatch_other (http : Request → HttpResult) (apiUrl requestType : String)
    (o : RequestOptions) (hget : requestType ≠ "GET") (hpost : requestType ≠ "POST") :
    dispatch http apiUrl requestType o = (none, none, []) := by
  simp only [dispatch, if_neg hget, if_neg hpost]

/-- With a credential and a verb other than GET and POST, `Send` does not return: it
reads the nil response. -/
theorem Send_other_verb (gjson : String → String → Result) (http : Request → HttpResult)
    (now : Time) (c : Client) (apiUri requestType : String) (body : List UInt8)
    (hcred : (GetAccessToken gjson http now c).err = none)
    (hget : requestType ≠ "GET") (hpost : requestType ≠ "POST") :
    (Send gjson http now c apiUri requestType body).outcome = .panics := by
  rw [Send_of_token_ok gjson http now c apiUri requestType body hcred,
    dispatch_other http _ requestType _ hget hpost]

/-- On a supported verb `Send` returns. -/
theorem Send_verb_returns (gjson : String → String → Result) (http : Request → HttpResult)
    (now : Time) (c : Client) (apiUri requestType : String) (body : List UInt8)
    (hverb : requestType = "GET" ∨ requestType = "POST") :
    ∃ resp err, (Send gjson http now c apiUri requestType body).outcome = .returns (resp, err) := by
  cases hcred : (GetAccessToken gjson http now c).err with
  | some e =>
    rw [Send_of_token_err gjson http now c apiUri requestType body e hcred]
    exact ⟨none, some e, rfl⟩
  | none =>
    rw [Send_of_token_ok gjson http now c apiUri requestType body hcred,
      dispatch_verb http _ requestType _ hverb]
    cases http ⟨requestType, API_URI ++ apiUri,
        sendOptions (GetAccessToken gjson http now c).token body⟩ with
    | fail err => exact ⟨none, some err, rfl⟩
    | ok resp =>
      by_cases h0 : (gjson resp.body "errcode").asInt = 0
      · exact ⟨some resp, none, by simp only [h0, if_true]⟩
      · exact ⟨none, some (WeixinErr (gjson resp.body "errcode").asInt
          (gjson resp.body "errmsg").asString), by simp only [if_neg h0]⟩

/-- C6 on the code: with a valid cached credential and the verb PUT, Send issues no
request and does not return at all; it dereferences the response that the verb switch
left nil. The claim asks for a non-nil error here. -/
theorem Send_invalid_verb_on_code :
    (GetAccessToken gjsonFixture (httpAlways bodyOk) 499 clientCached).err = none ∧
    (Send gjsonFixture (httpAlways bodyOk) 499 clientCached "message/send" "PUT" []).outcome
      = .panics ∧
    (Send gjsonFixture (httpAlways bodyOk) 499 clientCached "message/send" "PUT" []).trace
      = [] := by
  decide

/-- With a credential, a supported verb and an answered request, `Send` reads the
envelope: errcode 0 gives the response back. -/
theorem Send_errcode_zero (gjson : String → String → Result) (http : Request → HttpResult)
    (now : Time) (c : Client) (apiUri requestType : String) (body : List UInt8)
    (resp : Response)
    (hverb : requestType = "GET" ∨ requestType = "POST")
    (hcred : (GetAccessToken gjson http now c).err = none)
    (hresp : http { method := requestType
                    url := API_URI ++ apiUri
                    o := sendOptions (GetAccessToken gjson http now c).token body }
              = .ok resp)
    (h0 : (gjson resp.body "errcode").asInt = 0) :
    (Send gjson http now c apiUri requestType body).outcome = .returns (some resp, none) := by
  rw [Send_of_token_ok gjson http now c apiUri requestType body hcred,
    dispatch_verb http _ requestType _ hverb, hresp]
  simp only [h0, if_true]

/-- With a credential, a supported verb and an answered request, a nonzero errcode gives
the `WeixinErr` of the envelope and no response. -/
theorem Send_errcode_nonzero (gjson : String → String → Result) (http : Request → HttpResult)
    (now : Time) (c : Client) (apiUri requestType : String) (body : List UInt8)
    (resp : Response)
    (hverb : requestType = "GET" ∨ requestType = "POST")
    (hcred : (GetAccessToken gjson http now c).err = none)
    (hresp : http { method := requestType
                    url := API_URI ++ apiUri
                    o := sendOptions (GetAccessToken gjson http now c).token body }
              = .ok resp)
    (h0 : (gjson resp.body "errcode").asInt ≠ 0) :
    (Send gjson http now c apiUri requestType body).outcome =
      .returns (none, some (WeixinErr (gjson resp.body "errcode").asInt
                              (gjson resp.body "errmsg").asString)) := by
  rw [Send_of_token_ok gjson http now c apiUri requestType body hcred,
    dispatch_verb http _ requestType _ hverb, hresp]
  simp only [if_neg h0]

/-- C7, as stated, fails: with a valid cached credential and a POST answered by an
envelope whose errcode is the nonzero 18446744073709551616, Send returns that response
with a nil error. The code tests `errcode.Int()`, and gjson reads this number, which does
not fit an int64, as 0. -/
theorem Send_envelope_counterexample :
    (GetAccessToken gjsonFixture (httpAlways bodyErrcodeHuge) 499 clientCached).err = none ∧
    httpAlways bodyErrcodeHuge
        { method := "POST"
          url := API_URI ++ "message/send"
          o := sendOptions
            (GetAccessToken gjsonFixture (httpAlways bodyErrcodeHuge) 499 clientCached).token [] }
      = .ok ⟨bodyErrcodeHuge⟩ ∧
    (gjsonFixture bodyErrcodeHuge "errcode").asString
      = toString (18446744073709551616 : Int) ∧
    (18446744073709551616 : Int) ≠ 0 ∧
    (gjsonFixture bodyErrcodeHuge "errcode").asInt = 0 ∧
    (Send gjsonFixture (httpAlways bodyErrcodeHuge) 499 clientCached "message/send" "POST"
        []).outcome = .returns (some ⟨bodyErrcodeHuge⟩, none) := by
  decide

/-- C7 (amended): for every Send call with method GET or POST in which the credential is
obtained and the HTTP call succeeds with response resp: if `Int()` reads the errcode of
resp as 0, Send returns that same response with a nil error; if `Int()` reads it as a
nonzero int64 c, with errmsg m, Send returns a nil response and an error whose text
contains the decimal c and m. -/
theorem Send_envelope (gjson : String → String → Result) (http : Request → HttpResult)
    (now : Time) (c : Client) (apiUri requestType : String) (body : List UInt8)
    (resp : Response)
    (hverb : requestType = "GET" ∨ requestType = "POST")
    (hcred : (GetAccessToken gjson http now c).err = none)
    (hresp : http { method := requestType
                    url := API_URI ++ apiUri
                    o := sendOptions (GetAccessToken gjson http now c).token body }
              = .ok resp) :
    ((gjson resp.body "errcode").asInt = 0 →
        (Send gjson http now c apiUri requestType body).outcome
          = .returns (some resp, none)) ∧
    (∀ (code : Int) (m : String),
        (gjson resp.body "errcode").asInt = code → code ≠ 0 →
        (gjson resp.body "errmsg").asString = m →
        ∃ e : GoError,
          (Send gjson http now c apiUri requestType body).outcome = .returns (none, some e) ∧
          containsText e.text (toString code) ∧ containsText e.text m) := by
  constructor
  · exact Send_errcode_zero gjson http now c apiUri requestType body resp hverb hcred hresp
  · intro code m hcode hne hm
    have h0 : (gjson resp.body "errcode").asInt ≠ 0 := by rw [hcode]; exact hne
    refine ⟨WeixinErr code m, ?_, WeixinErr_contains_code code m, WeixinErr_contains_msg code m⟩
    rw [Send_errcode_nonzero gjson http now c apiUri requestType body resp hverb hcred hresp h0,
      hcode, hm]

theorem Send_envelope_witness :
    (Send gjsonFixture (httpAlways bodyOk) 499 clientCached "message/send" "POST" []).outcome
      = .returns (some ⟨bodyOk⟩, none) ∧
    (∃ e : GoError,
      (Send gjsonFixture (httpAlways bodyInvalid) 499 clientCached "user/get" "GET" []).outcome
        = .returns (none, some e) ∧
      containsText e.text (toString (40001 : Int)) ∧
      containsText e.text "invalid credential") :=
  ⟨(Send_envelope gjsonFixture (httpAlways bodyOk) 499 clientCached "message/send" "POST" []
      ⟨bodyOk⟩ (by decide) (by decide) (by decide)).1 (by decide),
   (Send_envelope gjsonFixture (httpAlways bodyInvalid) 499 clientCached "user/get" "GET" []
      ⟨bodyInvalid⟩ (by decide) (by decide) (by decide)).2 40001 "invalid credential"
      (by decide) (by decide) (by decide)⟩

/-- C8: for every Send call in which GetAccessToken returns an error e, Send returns a
nil response and exactly e; the only HTTP request of the whole call is the token-endpoint
request made inside GetAccessToken, so none goes to the API path, and the client is
left as it was. -/
theorem Send_credential_failure (gjson : String → String → Result)
    (http : Request → HttpResult) (now : Time) (c : Client) (apiUri requestType : String)
    (body : List UInt8) (e : GoError)
    (hcred : (GetAccessToken gjson http now c).err = some e) :
    (Send gjson http now c apiUri requestType body).outcome = .returns (none, some e) ∧
    (Send gjson http now c apiUri requestType body).trace
      = (GetAccessToken gjson http now c).trace ∧
    (Send gjson http now c apiUri requestType body).trace
      = [ { method := "GET"
            url := ACCESSTOKEN_API_URL
            o := { Params := [("corpid", c.CorpID), ("corpsecret", c.CorpSecret)]
                   Headers := []
                   JSON := none } } ] ∧
    (Send gjson http now c apiUri requestType body).client = c := by
  have hnv := GetAccessToken_err_not_valid gjson http now c e hcred
  have htr := GetAccessToken_trace gjson http now c
  rw [if_neg hnv] at htr
  rw [Send_of_token_err gjson http now c apiUri requestType body e hcred]
  exact ⟨rfl, rfl, htr, GetAccessToken_err_client gjson http now c e hcred⟩

theorem Send_credential_failure_witness :
    (Send gjsonFixture httpDown 1000 clientFresh "message/send" "POST" [1]).outcome
      = .returns (none, some ⟨"dial tcp: connection refused"⟩) ∧
    (Send gjsonFixture httpDown 1000 clientFresh "message/send" "POST" [1]).trace
      = (GetAccessToken gjsonFixture httpDown 1000 clientFresh).trace ∧
    (Send gjsonFixture httpDown 1000 clientFresh "message/send" "POST" [1]).trace
      = [ { method := "GET"
            url := ACCESSTOKEN_API_URL
            o := { Params := [("corpid", clientFresh.CorpID),
                              ("corpsecret", clientFresh.CorpSecret)]
                   Headers := []
                   JSON := none } } ] ∧
    (Send gjsonFixture httpDown 1000 clientFresh "message/send" "POST" [1]).client
      = clientFresh :=
  Send_credential_failure gjsonFixture httpDown 1000 clientFresh "message/send" "POST" [1]
    ⟨"dial tcp: connection refused"⟩ (by decide)

/-! ## SendMessage -/

/-- C9: for every message that serializes to the bytes b, SendMessage runs
Send("message/send", "POST", b) (same requests, same client state afterwards) and
returns (true, nil) if that Send returns a nil error and (false, e) if it returns the
error e; it always returns, and its boolean is true if and only if its error is nil. In
particular, when the credential is obtained and the API answers the POST with an
envelope whose errcode is 0, SendMessage returns (true, nil). -/
theorem SendMessage_facade {Message : Type} (marshal : Message → Except GoError (List UInt8))
    (gjson : String → String → Result) (http : Request → HttpResult) (now : Time)
    (c : Client) (msg : Message) (b : List UInt8) (hmarshal : marshal msg = .ok b) :
    (SendMessage marshal gjson http now c msg).trace
      = (Send gjson http now c "message/send" "POST" b).trace ∧
    (SendMessage marshal gjson http now c msg).client
      = (Send gjson http now c "message/send" "POST" b).client ∧
    (∀ resp : Option Response,
        (Send gjson http now c "message/send" "POST" b).outcome = .returns (resp, none) →
        (SendMessage marshal gjson http now c msg).outcome = .returns (true, none)) ∧
    (∀ (resp : Option Response) (e : GoError),
        (Send gjson http now c "message/send" "POST" b).outcome = .returns (resp, some e) →
        (SendMessage marshal gjson http now c msg).outcome = .returns (false, some e)) ∧
    (∃ (ok : Bool) (err : Option GoError),
        (SendMessage marshal gjson http now c msg).outcome = .returns (ok, err) ∧
        (ok = true ↔ err = none)) ∧
    (∀ resp : Response,
        (GetAccessToken gjson http now c).err = none →
        http { method := "POST"
               url := API_URI ++ "message/send"
               o := sendOptions (GetAccessToken gjson http now c).token b } = .ok resp →
        (gjson resp.body "errcode").asInt = 0 →
        (SendMessage marshal gjson http now c msg).outcome = .returns (true, none)) := by
  have hnil : ∀ resp : Option Response,
      (Send gjson http now c "message/send" "POST" b).outcome = .returns (resp, none) →
      (SendMessage marshal gjson http now c msg).outcome = .returns (true, none) := by
    intro resp h
    simp only [SendMessage, hmarshal, h]
  have herr : ∀ (resp : Option Response) (e : GoError),
      (Send gjson http now c "message/send" "POST" b).outcome = .returns (resp, some e) →
      (SendMessage marshal gjson http now c msg).outcome = .returns (false, some e) := by
    intro resp e h
    simp only [SendMessage, hmarshal, h]
  refine ⟨?_, ?_, hnil, herr, ?_, ?_⟩
  · simp only [SendMessage, hmarshal]
    split <;> rfl
  · simp only [SendMessage, hmarshal]
    split <;> rfl
  · obtain ⟨resp, err, h⟩ :=
      Send_verb_returns gjson http now c "message/send" "POST" b (Or.inr rfl)
    cases err with
    | none => exact ⟨true, none, hnil resp h, by simp⟩
    | some e => exact ⟨false, some e, herr resp e h, by simp⟩
  · intro resp hcred hresp h0
    exact hnil (some resp)
      (Send_errcode_zero gjson http now c "message/send" "POST" b resp (Or.inr rfl) hcred hresp h0)

theorem SendMessage_facade_witness :
    (SendMessage marshalEmpty gjsonFixture (httpTwo bodyToken300 bodyOk) 1000 clientFresh ()).outcome
      = .returns (true, none) :=
  (SendMessage_facade marshalEmpty gjsonFixture (httpTwo bodyToken300 bodyOk) 1000 clientFresh ()
      [123, 125] rfl).2.2.2.2.2 ⟨bodyOk⟩ (by decide) (by decide) (by decide)

/-! ## Sequences of GetAccessToken calls -/

/-- A cache that is not valid at some time is not valid at any later time. -/
theorem cacheValid_mono (c : Client) (t u : Time) (htu : t ≤ u) (h : ¬ cacheValid c t) :
    ¬ cacheValid c u := by
  unfold cacheValid at *
  intro hu
  exact h ⟨hu.1, lt_of_le_of_lt htu hu.2⟩

/-- Starting from a cache that is not valid, at non-decreasing times: a call that takes
the fast path comes after a call that refreshed successfully. -/
theorem runCalls_fast_after_refresh (gjson : String → String → Result) :
    ∀ (calls : List Call) (c : Client) (t : Time), ¬ cacheValid c t →
      List.Chain (· ≤ ·) t (calls.map Call.now) →
      ∀ (i : Nat) (r : TokenResult), (runCalls gjson c calls)[i]? = some r → r.trace = [] →
        ∃ (j : Nat) (r2 : TokenResult), j < i ∧ (runCalls gjson c calls)[j]? = some r2 ∧
          r2.trace ≠ [] ∧ r2.err = none := by
  intro calls
  induction calls with
  | nil =>
    intro c t _ _ i r hr _
    simp [runCalls] at hr
  | cons k ks ih =>
    intro c t hnv hchain i r hr htrace
    rw [List.map_cons, List.chain_cons] at hchain
    have hnvk : ¬ cacheValid c k.now := cacheValid_mono c t k.now hchain.1 hnv
    have htr := GetAccessToken_trace gjson k.http k.now c
    rw [if_neg hnvk] at htr
    cases i with
    | zero =>
      simp only [runCalls, List.getElem?_cons_zero, Option.some.injEq] at hr
      rw [← hr, htr] at htrace
      simp at htrace
    | succ i =>
      simp only [runCalls, List.getElem?_cons_succ] at hr
      cases herr : (GetAccessToken gjson k.http k.now c).err with
      | none =>
        refine ⟨0, GetAccessToken gjson k.http k.now c, Nat.succ_pos i, ?_, ?_, herr⟩
        · simp only [runCalls, List.getElem?_cons_zero]
        · rw [htr]; simp
      | some e =>
        rw [GetAccessToken_err_client gjson k.http k.now c e herr] at hr
        obtain ⟨j, r2, hj, hr2, h2⟩ := ih c k.now hnvk hchain.2 i r hr htrace
        refine ⟨j + 1, r2, Nat.succ_lt_succ hj, ?_, h2⟩
        simp only [runCalls, List.getElem?_cons_succ]
        rw [GetAccessToken_err_client gjson k.http k.now c e herr]
        exact hr2

/-- C10: take any client state and a GetAccessToken call on it that attempts a refresh
and fails (it returns an error: a transport error or a nonzero errcode), followed by any
sequence of further calls at non-decreasing times. Then a later call that returns from
the cache fast path (it issues no request) comes after a later call that refreshed
successfully, so the token cached at the failure is never served from the cache without
a new successful refresh; and a later call that returns a token with a nil error is, or
comes after, a call that refreshed successfully. -/
theorem stale_token_not_returned (gjson : String → String → Result) (c : Client)
    (first : Call) (later : List Call) (e : GoError)
    (hfail : (GetAccessToken gjson first.http first.now c).err = some e)
    (hmono : List.Chain (· ≤ ·) first.now (later.map Call.now)) :
    ∀ (i : Nat) (r : TokenResult),
      (runCalls gjson (GetAccessToken gjson first.http first.now c).client later)[i]? = some r →
      (r.trace = [] →
        ∃ (j : Nat) (r2 : TokenResult), j < i ∧
          (runCalls gjson (GetAccessToken gjson first.http first.now c).client later)[j]?
            = some r2 ∧
          r2.trace ≠ [] ∧ r2.err = none) ∧
      (r.err = none →
        ∃ (j : Nat) (r2 : TokenResult), j ≤ i ∧
          (runCalls gjson (GetAccessToken gjson first.http first.now c).client later)[j]?
            = some r2 ∧
          r2.trace ≠ [] ∧ r2.err = none) := by
  intro i r hr
  have hnv := GetAccessToken_err_not_valid gjson first.http first.now c e hfail
  rw [GetAccessToken_err_client gjson first.http first.now c e hfail] at hr ⊢
  have hfast := runCalls_fast_after_refresh gjson later c first.now hnv hmono i r hr
  refine ⟨hfast, fun herr => ?_⟩
  by_cases htrace : r.trace = []
  · obtain ⟨j, r2, hj, hr2, h2⟩ := hfast htrace
    exact ⟨j, r2, Nat.le_of_lt hj, hr2, h2⟩
  · exact ⟨i, r, Nat.le_refl i, hr, htrace, herr⟩

theorem stale_token_not_returned_witness :
    ∃ (j : Nat) (r2 : TokenResult), j < 2 ∧
      (runCalls gjsonFixture
          (GetAccessToken gjsonFixture callFirst.http callFirst.now clientCached).client
          callsLater)[j]? = some r2 ∧
      r2.trace ≠ [] ∧ r2.err = none :=
  (stale_token_not_returned gjsonFixture clientCached callFirst callsLater
      ⟨"dial tcp: connection refused"⟩ (by decide)
      (by simp [callFirst, callsLater]) 2
      { token := "tok"
        err := none
        client := { CorpID := "corp", CorpSecret := "secret"
                    accessInfo := { token := "tok", expired := 2000 + 295 * Second } }
        trace := [] }
      (by decide)).1 rfl

end Weixin
